import Mathlib

/-!
Verification of the selection-to-analysis coordination core of the ECHO
embedding panel (src/Frontend/src/components/panels/EmbeddingPanel.tsx).

The component's state hooks become fields of `PanelState`; each event handler
of the source becomes a pure function on `PanelState`.  Asynchronous fetches
are split into a dispatch step (the synchronous prefix up to the awaited
network call) and a completion step (the `then`/`catch`/`finally` handlers),
so that traces can interleave in-flight requests exactly as the event loop
can.  A `setTimeout` callback is modelled by a `DebounceToken` recording the
deadline together with the values the JavaScript closure captures at
scheduling time (the selected files, and the render's `analysisType`,
`model` and `dataset`).
-/

/- ===== Analysis payload shapes (the three TS interfaces) ===== -/

/-- Per-feature aggregate statistics (interface `AudioFrequencyAnalysis.aggregate_statistics`). -/
structure FeatureStats where
  mean : Float
  std : Float
  min : Float
  max : Float
  median : Float

/-- Histogram entry of `feature_distributions`. -/
structure HistogramData where
  histogram : List Float
  bins : List Float

/-- Entry of `most_common_features`. -/
structure CommonFeature where
  feature : String
  normalized_mean : Float
  stability_score : Float
  prevalence_score : Float
  mean : Float
  std : Float

/-- The `summary` of `AudioFrequencyAnalysis`. -/
structure FrequencySummary where
  total_files : Float
  total_features_extracted : Float
  avg_duration : Float
  avg_tempo : Float

/-- The `cache_info` block shared by all three analysis shapes. -/
structure CacheInfo where
  cached_count : Float
  missing_count : Float
  cache_hit_rate : Float

/-- Entry of `individual_analyses`. -/
structure IndividualAnalysis where
  filename : String
  features : List (String × Float)

/-- TS interface `AudioFrequencyAnalysis`. -/
structure AudioFrequencyAnalysis where
  model_context : String
  individual_analyses : List IndividualAnalysis
  aggregate_statistics : List (String × FeatureStats)
  feature_distributions : List (String × HistogramData)
  most_common_features : List CommonFeature
  feature_categories : List (String × List String)
  summary : FrequencySummary
  cache_info : CacheInfo

/-- Entry of `individual_predictions`. -/
structure IndividualPrediction where
  filename : String
  predicted_emotion : String
  probabilities : List (String × Float)
  confidence : Float

/-- The `summary` of `BatchPredictionAnalysis`. -/
structure PredictionSummary where
  total_files : Float
  dominant_emotion : String
  dominant_count : Float
  dominant_percentage : Float

/-- TS interface `BatchPredictionAnalysis` (Wav2Vec2). -/
structure BatchPredictionAnalysis where
  emotion_distribution : List (String × Float)
  emotion_counts : List (String × Float)
  individual_predictions : List IndividualPrediction
  summary : PredictionSummary
  cache_info : CacheInfo

/-- Entry of `common_terms`. -/
structure CommonTerm where
  term : String
  count : Float
  percentage : Float

/-- Entry of `individual_transcripts`. -/
structure IndividualTranscript where
  filename : String
  transcript : String
  word_count : Float

/-- The `summary` of `WhisperAnalysis`. -/
structure WhisperSummary where
  total_files : Float
  total_words : Float
  unique_words : Float
  avg_words_per_file : Float

/-- TS interface `WhisperAnalysis`. -/
structure WhisperAnalysis where
  common_terms : List CommonTerm
  individual_transcripts : List IndividualTranscript
  summary : WhisperSummary
  cache_info : CacheInfo

/- ===== Core state ===== -/

/-- The union type of the `analysisType` state hook:
`'predictions' | 'common-terms' | 'audio-features'`. -/
inductive AnalysisKind where
  | predictions
  | commonTerms
  | audioFeatures
  deriving DecidableEq, Inhabited

/-- The union type of the `selectionMode` state hook: `'box' | 'lasso'`. -/
inductive SelectionGesture where
  | box
  | lasso
  deriving DecidableEq

/-- Result of the external projection service (`useEmbedding` context).
Modelled from the spec: the `EmbeddingContext` source is not under `src/`;
per section 6 the projection service yields projected coordinates per file,
and the render layer reads a `model` tag from it.  Only its presence
(`isSome`) is inspected by the coordination core. -/
structure EmbeddingData where
  model : String
  coordinates : List (String × List Float)

/-- A pending `setTimeout` callback stored in `debounceRef`.  Besides the
deadline (schedule time + 300), it records what the JavaScript closure
captured when the handler ran: the `selectedFiles` argument and the
enclosing render's `analysisType`, `model` and `dataset` values, which
`fetchAnalysis` reads when the timer fires. -/
structure DebounceToken where
  deadline : Nat
  selectedFiles : List String
  kind : AnalysisKind
  model : String
  dataset : String

/-- The state hooks and props of `EmbeddingPanel` that the coordination core
reads or writes.  `model`, `dataset` and `availableFiles` are props (default
values `"whisper-base"`, `"common-voice"`, `[]`); the rest are `useState`
hooks with their initial values in `initialPanel`. -/
structure PanelState where
  model : String
  dataset : String
  availableFiles : List String
  reductionMethod : String
  is3D : Bool
  selectionMode : SelectionGesture
  analysisType : AnalysisKind
  selectedByAngle : List String
  selectedPoints2D : List String
  audioFrequencyAnalysis : Option AudioFrequencyAnalysis
  batchPrediction : Option BatchPredictionAnalysis
  whisperAnalysis : Option WhisperAnalysis
  isLoadingAnalysis : Bool
  analysisError : Option String
  debounceTimer : Option DebounceToken
  embeddingData : Option EmbeddingData

/-- Initial state at panel mount, with the default prop values. -/
def initialPanel : PanelState where
  model := "whisper-base"
  dataset := "common-voice"
  availableFiles := []
  reductionMethod := "pca"
  is3D := false
  selectionMode := .box
  analysisType := .audioFeatures
  selectedByAngle := []
  selectedPoints2D := []
  audioFrequencyAnalysis := none
  batchPrediction := none
  whisperAnalysis := none
  isLoadingAnalysis := false
  analysisError := none
  debounceTimer := none
  embeddingData := none

/- ===== The JavaScript sort/join selection comparison ===== -/

/-- Lexicographic comparison of character lists by code point, the order the
JavaScript default `Array.prototype.sort` induces on the plain ASCII
filenames involved.  Written as a structural `Bool` function so that the
kernel can evaluate it. -/
def charListLt : List Char → List Char → Bool
  | _, [] => false
  | [], _ :: _ => true
  | a :: as, b :: bs =>
    decide (a.toNat < b.toNat) || (decide (a.toNat = b.toNat) && charListLt as bs)

/-- String comparison used by the sort in the selection-change check. -/
def strLtB (a b : String) : Bool :=
  charListLt a.data b.data

/-- Insert into a sorted list, the comparison sort modelling `.sort()`. -/
def insertSorted (x : String) : List String → List String
  | [] => [x]
  | y :: ys => if strLtB x y then x :: y :: ys else y :: insertSorted x ys

/-- Deterministic comparison sort modelling `selectedFiles.sort()`. -/
def jsSort : List String → List String
  | [] => []
  | x :: xs => insertSorted x (jsSort xs)

/-- The selection fingerprint `files.sort().join(',')` both selection
handlers compare. -/
def selectionKey (files : List String) : String :=
  String.intercalate "," (jsSort files)

/- ===== Selection handlers ===== -/

/-- `clearAnalysisResults`: sets all three analysis result slots to null. -/
def clearAnalysisResults (s : PanelState) : PanelState :=
  { s with audioFrequencyAnalysis := none, batchPrediction := none, whisperAnalysis := none }

/-- `handleAngleRangeSelect(selectedFiles)` at time `now`: compares the
sorted, comma-joined fingerprints; when they differ it stores the new
selection, clears any pending debounce timer and schedules a new 300-unit
one whose callback will run `fetchAnalysis(selectedFiles)` when the files
are non-empty and `clearAnalysisResults()` otherwise. -/
def handleAngleRangeSelect (now : Nat) (selectedFiles : List String) (s : PanelState) :
    PanelState :=
  if selectionKey s.selectedByAngle ≠ selectionKey selectedFiles then
    { s with selectedByAngle := selectedFiles,
             debounceTimer := some { deadline := now + 300, selectedFiles := selectedFiles,
                                     kind := s.analysisType, model := s.model,
                                     dataset := s.dataset } }
  else s

/-- `handle2DSelectionChange(selectedFiles)` at time `now`; identical to the
angle handler but against `selectedPoints2D`. -/
def handle2DSelectionChange (now : Nat) (selectedFiles : List String) (s : PanelState) :
    PanelState :=
  if selectionKey s.selectedPoints2D ≠ selectionKey selectedFiles then
    { s with selectedPoints2D := selectedFiles,
             debounceTimer := some { deadline := now + 300, selectedFiles := selectedFiles,
                                     kind := s.analysisType, model := s.model,
                                     dataset := s.dataset } }
  else s

/-- The `onValueChange` of the analysis-type dropdown: sets the kind, clears
all analysis results and both selections.  It does not touch the debounce
timer. -/
def handleAnalysisTypeChange (value : AnalysisKind) (s : PanelState) : PanelState :=
  clearAnalysisResults
    { s with analysisType := value, selectedByAngle := [], selectedPoints2D := [] }

/- ===== Analysis mode resolver ===== -/

/-- `model.includes(sub)`: substring containment, structural `Bool`. -/
def charListPre : List Char → List Char → Bool
  | [], _ => true
  | _ :: _, [] => false
  | a :: as, b :: bs => a == b && charListPre as bs

/-- Substring search scanning every suffix of the haystack. -/
def hasSubList (needle : List Char) : List Char → Bool
  | [] => needle.isEmpty
  | c :: rest => charListPre needle (c :: rest) || hasSubList needle rest

/-- The `String.prototype.includes` test used by `model?.includes('whisper')`. -/
def stringIncludes (s sub : String) : Bool :=
  hasSubList sub.data s.data

/-- `getAvailableAnalysisTypes()`: the legal analysis kinds for a model,
first element first in dropdown order. -/
def getAvailableAnalysisTypes (model : String) : List AnalysisKind :=
  if model = "wav2vec2" then [.predictions, .audioFeatures]
  else if stringIncludes model "whisper" then [.commonTerms, .audioFeatures]
  else [.audioFeatures]

/-- The `useEffect` on `[model]`: if the active kind is no longer legal,
force it to the first legal kind and clear all analysis results.  `s.model`
is already the new model value when the effect runs. -/
def modelChangeEffect (s : PanelState) : PanelState :=
  if s.analysisType ∉ getAvailableAnalysisTypes s.model then
    clearAnalysisResults { s with analysisType := (getAvailableAnalysisTypes s.model).headI }
  else s

/- ===== Analysis fetch dispatch (synchronous prefix of the three fetches) ===== -/

/-- The request a fetch sends: endpoint path and JSON body fields.
`model`/`dataset` are `none` when the body omits them (`dataset` is added
only when truthy; the wav2vec2 endpoint body has no `model` field). -/
structure AnalysisRequest where
  endpoint : String
  filenames : List String
  model : Option String
  dataset : Option String
  deriving DecidableEq

/-- Body of `POST /inferences/audio-frequency-batch`. -/
def frequencyRequest (filenames : List String) (model dataset : String) : AnalysisRequest where
  endpoint := "/inferences/audio-frequency-batch"
  filenames := filenames
  model := some model
  dataset := if dataset ≠ "" then some dataset else none

/-- Body of `POST /inferences/wav2vec2-batch` (no `model` field). -/
def predictionRequest (filenames : List String) (dataset : String) : AnalysisRequest where
  endpoint := "/inferences/wav2vec2-batch"
  filenames := filenames
  model := none
  dataset := if dataset ≠ "" then some dataset else none

/-- Body of `POST /inferences/whisper-batch`. -/
def whisperRequest (filenames : List String) (model dataset : String) : AnalysisRequest where
  endpoint := "/inferences/whisper-batch"
  filenames := filenames
  model := some model
  dataset := if dataset ≠ "" then some dataset else none

/-- The request `fetchAnalysis` issues for a given kind. -/
def analysisRequestFor : AnalysisKind → List String → String → String → AnalysisRequest
  | .predictions, fns, _, ds => predictionRequest fns ds
  | .commonTerms, fns, m, ds => whisperRequest fns m ds
  | .audioFeatures, fns, m, ds => frequencyRequest fns m ds

/-- Synchronous prefix of `fetchFrequencyAnalysis`: the empty-filenames early
return, then `setIsLoadingAnalysis(true)`, `setAnalysisError(null)` and the
network request. -/
def fetchFrequencyAnalysisStart (filenames : List String) (model dataset : String)
    (s : PanelState) : PanelState × Option AnalysisRequest :=
  if filenames.length = 0 then (s, none)
  else ({ s with isLoadingAnalysis := true, analysisError := none },
        some (frequencyRequest filenames model dataset))

/-- Synchronous prefix of `fetchBatchPredictions`. -/
def fetchBatchPredictionsStart (filenames : List String) (dataset : String)
    (s : PanelState) : PanelState × Option AnalysisRequest :=
  if filenames.length = 0 then (s, none)
  else ({ s with isLoadingAnalysis := true, analysisError := none },
        some (predictionRequest filenames dataset))

/-- Synchronous prefix of `fetchWhisperAnalysis`. -/
def fetchWhisperAnalysisStart (filenames : List String) (model dataset : String)
    (s : PanelState) : PanelState × Option AnalysisRequest :=
  if filenames.length = 0 then (s, none)
  else ({ s with isLoadingAnalysis := true, analysisError := none },
        some (whisperRequest filenames model dataset))

/-- `fetchAnalysis(filenames)`: route to one of the three fetches by the
active kind. -/
def fetchAnalysisStart (kind : AnalysisKind) (filenames : List String) (model dataset : String)
    (s : PanelState) : PanelState × Option AnalysisRequest :=
  match kind with
  | .predictions => fetchBatchPredictionsStart filenames dataset s
  | .commonTerms => fetchWhisperAnalysisStart filenames model dataset s
  | .audioFeatures => fetchFrequencyAnalysisStart filenames model dataset s

/-- Body of the scheduled `setTimeout` callback: with the captured files
non-empty it dispatches `fetchAnalysis` using the captured kind/model/
dataset, otherwise it clears all analysis results. -/
def debounceCallback (tok : DebounceToken) (s : PanelState) :
    PanelState × Option AnalysisRequest :=
  if tok.selectedFiles.length > 0 then
    fetchAnalysisStart tok.kind tok.selectedFiles tok.model tok.dataset s
  else (clearAnalysisResults s, none)

/- ===== Fetch completion handlers (then / catch / finally) ===== -/

/-- Error text thrown by `fetchFrequencyAnalysis` on a non-ok response. -/
def frequencyErrorMessage (status : Nat) (body : String) : String :=
  "Failed to fetch audio frequency analysis: " ++ toString status ++ " - " ++ body

/-- Error text thrown by `fetchBatchPredictions` on a non-ok response. -/
def predictionErrorMessage (status : Nat) (body : String) : String :=
  "Failed to fetch batch predictions: " ++ toString status ++ " - " ++ body

/-- Error text thrown by `fetchWhisperAnalysis` on a non-ok response. -/
def whisperErrorMessage (status : Nat) (body : String) : String :=
  "Failed to fetch whisper analysis: " ++ toString status ++ " - " ++ body

/-- Success path of `fetchFrequencyAnalysis`: store the parsed analysis and
null the other two slots; `finally` clears the loading flag. -/
def fetchFrequencySuccess (analysis : AudioFrequencyAnalysis) (s : PanelState) : PanelState :=
  { s with audioFrequencyAnalysis := some analysis, batchPrediction := none,
           whisperAnalysis := none, isLoadingAnalysis := false }

/-- Catch path of `fetchFrequencyAnalysis`: record the error message and
null only the frequency slot; `finally` clears the loading flag. -/
def fetchFrequencyFailure (message : String) (s : PanelState) : PanelState :=
  { s with analysisError := some message, audioFrequencyAnalysis := none,
           isLoadingAnalysis := false }

/-- Success path of `fetchBatchPredictions`. -/
def fetchPredictionSuccess (prediction : BatchPredictionAnalysis) (s : PanelState) : PanelState :=
  { s with batchPrediction := some prediction, audioFrequencyAnalysis := none,
           whisperAnalysis := none, isLoadingAnalysis := false }

/-- Catch path of `fetchBatchPredictions`. -/
def fetchPredictionFailure (message : String) (s : PanelState) : PanelState :=
  { s with analysisError := some message, batchPrediction := none,
           isLoadingAnalysis := false }

/-- Success path of `fetchWhisperAnalysis`. -/
def fetchWhisperSuccess (analysis : WhisperAnalysis) (s : PanelState) : PanelState :=
  { s with whisperAnalysis := some analysis, audioFrequencyAnalysis := none,
           batchPrediction := none, isLoadingAnalysis := false }

/-- Catch path of `fetchWhisperAnalysis`. -/
def fetchWhisperFailure (message : String) (s : PanelState) : PanelState :=
  { s with analysisError := some message, whisperAnalysis := none,
           isLoadingAnalysis := false }

/-- What the network hands back to an in-flight fetch: a parsed JSON body of
the endpoint's shape, a non-ok HTTP status with its body text, or a
transport error (an `Error` whose `message` the catch block reads). -/
inductive FetchResult where
  | okFrequency (analysis : AudioFrequencyAnalysis)
  | okPrediction (prediction : BatchPredictionAnalysis)
  | okWhisper (analysis : WhisperAnalysis)
  | httpError (status : Nat) (body : String)
  | netError (message : String)

/-- Run the completion handlers of a fetch of the given kind on a network
result.  A success body of a different endpoint's shape is not modelled
(each endpoint answers with its own shape), so those pairings are inert. -/
def applyCompletion (kind : AnalysisKind) (res : FetchResult) (s : PanelState) : PanelState :=
  match kind, res with
  | .audioFeatures, .okFrequency a => fetchFrequencySuccess a s
  | .audioFeatures, .httpError st bd => fetchFrequencyFailure (frequencyErrorMessage st bd) s
  | .audioFeatures, .netError m => fetchFrequencyFailure m s
  | .predictions, .okPrediction p => fetchPredictionSuccess p s
  | .predictions, .httpError st bd => fetchPredictionFailure (predictionErrorMessage st bd) s
  | .predictions, .netError m => fetchPredictionFailure m s
  | .commonTerms, .okWhisper w => fetchWhisperSuccess w s
  | .commonTerms, .httpError st bd => fetchWhisperFailure (whisperErrorMessage st bd) s
  | .commonTerms, .netError m => fetchWhisperFailure m s
  | _, _ => s

/- ===== Event-loop trace model of the panel ===== -/

/-- A fetch that has been dispatched and whose response has not yet been
applied. -/
structure PendingFetch where
  kind : AnalysisKind
  request : AnalysisRequest

/-- Panel state plus the multiset of in-flight analysis fetches. -/
structure Sys where
  panel : PanelState
  inFlight : List PendingFetch

/-- The events the single-threaded event loop can deliver to the core:
selection callbacks from the visualization surface, the analysis-type
dropdown, a model prop change, a due debounce timer firing, and the arrival
of the response of the `i`-th in-flight fetch. -/
inductive Ev where
  | angleSelect (now : Nat) (files : List String)
  | planarSelect (now : Nat) (files : List String)
  | kindChange (value : AnalysisKind)
  | modelChange (m : String)
  | timerFire (now : Nat)
  | responseArrives (i : Nat) (res : FetchResult)

/-- One event-loop step. -/
def stepSys (sys : Sys) (e : Ev) : Sys :=
  match e with
  | .angleSelect now files => { sys with panel := handleAngleRangeSelect now files sys.panel }
  | .planarSelect now files => { sys with panel := handle2DSelectionChange now files sys.panel }
  | .kindChange value => { sys with panel := handleAnalysisTypeChange value sys.panel }
  | .modelChange m => { sys with panel := modelChangeEffect { sys.panel with model := m } }
  | .timerFire now =>
    match sys.panel.debounceTimer with
    | none => sys
    | some tok =>
      if tok.deadline ≤ now then
        let r := debounceCallback tok { sys.panel with debounceTimer := none }
        { panel := r.1,
          inFlight := sys.inFlight ++ (r.2.map (fun q => PendingFetch.mk tok.kind q)).toList }
      else sys
  | .responseArrives i res =>
    match sys.inFlight[i]? with
    | none => sys
    | some pf => { panel := applyCompletion pf.kind res sys.panel,
                   inFlight := sys.inFlight.eraseIdx i }

/-- Run a trace of events. -/
def runSys (sys : Sys) : List Ev → Sys
  | [] => sys
  | e :: es => runSys (stepSys sys e) es

/-- The system at panel mount. -/
def initialSys : Sys where
  panel := initialPanel
  inFlight := []

/- ===== Timed driver for debounce bursts ===== -/

/-- Which selection handler a burst goes through. -/
inductive SelMode where
  | angle
  | planar

/-- The selection handler of a mode. -/
def selectHandler : SelMode → Nat → List String → PanelState → PanelState
  | .angle => handleAngleRangeSelect
  | .planar => handle2DSelectionChange

/-- The stored selection a mode's handler compares against. -/
def storedOf : SelMode → PanelState → List String
  | .angle, s => s.selectedByAngle
  | .planar, s => s.selectedPoints2D

/-- Fire the pending debounce timer when its deadline has passed,
accumulating any dispatched request. -/
def fireDue (now : Nat) (p : PanelState) (acc : List AnalysisRequest) :
    PanelState × List AnalysisRequest :=
  match p.debounceTimer with
  | none => (p, acc)
  | some tok =>
    if tok.deadline ≤ now then
      ((debounceCallback tok { p with debounceTimer := none }).1,
       acc ++ (debounceCallback tok { p with debounceTimer := none }).2.toList)
    else (p, acc)

/-- Deliver a timed burst of selection events through one handler, firing
any timer that falls due before each event. -/
def runBurst (mode : SelMode) : PanelState → List AnalysisRequest →
    List (Nat × List String) → PanelState × List AnalysisRequest
  | p, acc, [] => (p, acc)
  | p, acc, (t, fs) :: rest =>
    runBurst mode (selectHandler mode t fs (fireDue t p acc).1) (fireDue t p acc).2 rest

/-- Let the quiet period elapse: fire whatever timer is still pending. -/
def flushTimer (p : PanelState) (acc : List AnalysisRequest) :
    PanelState × List AnalysisRequest :=
  match p.debounceTimer with
  | none => (p, acc)
  | some tok =>
    ((debounceCallback tok { p with debounceTimer := none }).1,
     acc ++ (debounceCallback tok { p with debounceTimer := none }).2.toList)

/-- Every event of a burst arrives at or after the previous one and within
its 300-unit quiet period. -/
def burstWellSpaced : List (Nat × List String) → Bool
  | [] => true
  | [_] => true
  | a :: b :: rest => (decide (a.1 ≤ b.1) && decide (b.1 < a.1 + 300)) && burstWellSpaced (b :: rest)

/-- Every event of a burst changes the selection: its fingerprint differs
from the previous event's (the stored selection, for the first event). -/
def burstChanges (stored : List String) : List (Nat × List String) → Bool
  | [] => true
  | e :: rest => (selectionKey stored != selectionKey e.2) && burstChanges e.2 rest

/-- Every event of a burst carries a non-empty selection. -/
def burstNonEmptyFiles : List (Nat × List String) → Bool
  | [] => true
  | e :: rest => !e.2.isEmpty && burstNonEmptyFiles rest

/- ===== Embedding fetch trigger ===== -/

/-- A projection request sent to the external embedding service:
`fetchEmbeddings(model, dataset, filesToProcess, reductionMethod, nComponents)`. -/
structure EmbeddingRequest where
  model : String
  dataset : String
  files : List String
  method : String
  nComponents : Nat
  deriving DecidableEq

/-- The `useEffect` on `[model, dataset, availableFiles, reductionMethod,
fetchEmbeddings]`: when the file universe is non-empty and both `model` and
`dataset` are truthy, request a projection of all files at the current
dimensionality.  Note `is3D` is not among the dependencies. -/
def embeddingFetchEffect (s : PanelState) : Option EmbeddingRequest :=
  if s.availableFiles.length > 0 ∧ s.model ≠ "" ∧ s.dataset ≠ "" then
    some { model := s.model, dataset := s.dataset, files := s.availableFiles,
           method := s.reductionMethod, nComponents := if s.is3D then 3 else 2 }
  else none

/-- `handle3DToggle(checked)`: flip `is3D` and re-fetch at the new
dimensionality, but only when embedding data is already present and the
file universe is non-empty. -/
def handle3DToggle (checked : Bool) (s : PanelState) : PanelState × Option EmbeddingRequest :=
  ({ s with is3D := checked },
   if s.embeddingData.isSome = true ∧ s.availableFiles.length > 0 then
     some { model := s.model, dataset := s.dataset, files := s.availableFiles,
            method := s.reductionMethod, nComponents := if checked then 3 else 2 }
   else none)

/-- Configuration changes feeding the embedding fetch trigger. -/
inductive ConfigEv where
  | modelProp (m : String)
  | datasetProp (d : String)
  | filesProp (files : List String)
  | methodChange (r : String)
  | dimensionToggle (checked : Bool)

/-- Apply a configuration change and collect the projection request it
issues, if any.  A model/dataset/files/method change re-runs the embedding
`useEffect`; a model change additionally re-runs the kind-invalidation
effect first (their declaration order in the source); a dimensionality
toggle runs only `handle3DToggle`, because `is3D` is not a dependency of
the embedding effect. -/
def stepConfig (e : ConfigEv) (s : PanelState) : PanelState × Option EmbeddingRequest :=
  match e with
  | .modelProp m =>
    let s1 := modelChangeEffect { s with model := m }
    (s1, embeddingFetchEffect s1)
  | .datasetProp d =>
    let s1 := { s with dataset := d }
    (s1, embeddingFetchEffect s1)
  | .filesProp files =>
    let s1 := { s with availableFiles := files }
    (s1, embeddingFetchEffect s1)
  | .methodChange r =>
    let s1 := { s with reductionMethod := r }
    (s1, embeddingFetchEffect s1)
  | .dimensionToggle checked => handle3DToggle checked s

/- ===== Shared predicates ===== -/

/-- All three analysis result slots are empty. -/
def allResultsEmpty (s : PanelState) : Prop :=
  s.audioFrequencyAnalysis = none ∧ s.batchPrediction = none ∧ s.whisperAnalysis = none

/-- `sub` occurs as a contiguous substring of `hay`. -/
def strIncludes (hay sub : String) : Prop :=
  ∃ pre post, hay = pre ++ sub ++ post

/-- Everything except the error message, the loading flag and the analysis
result slots agrees between `s` and `t`. -/
def selectionFrameIntact (s t : PanelState) : Prop :=
  t.model = s.model ∧ t.dataset = s.dataset ∧ t.availableFiles = s.availableFiles ∧
  t.reductionMethod = s.reductionMethod ∧ t.is3D = s.is3D ∧
  t.selectionMode = s.selectionMode ∧ t.analysisType = s.analysisType ∧
  t.selectedByAngle = s.selectedByAngle ∧ t.selectedPoints2D = s.selectedPoints2D ∧
  t.debounceTimer = s.debounceTimer ∧ t.embeddingData = s.embeddingData

/- ===== Concrete payloads, states and traces ===== -/

/-- A frequency-analysis response body carrying a distinguishing
`model_context` tag. -/
def sampleFrequencyAnalysis (ctx : String) : AudioFrequencyAnalysis where
  model_context := ctx
  individual_analyses := []
  aggregate_statistics := []
  feature_distributions := []
  most_common_features := []
  feature_categories := []
  summary := { total_files := 0, total_features_extracted := 0, avg_duration := 0, avg_tempo := 0 }
  cache_info := { cached_count := 0, missing_count := 0, cache_hit_rate := 0 }

/-- Dispatch A (for `x.wav`) starts, then dispatch B (for `y.wav`) starts,
then B's response is committed. -/
def staleTracePrefix : List Ev :=
  [ .planarSelect 0 ["x.wav"], .timerFire 300,
    .planarSelect 400 ["y.wav"], .timerFire 700,
    .responseArrives 1 (.okFrequency (sampleFrequencyAnalysis "response-B")) ]

/-- `staleTracePrefix` followed by the late arrival of stale response A. -/
def staleTrace : List Ev :=
  staleTracePrefix ++ [ .responseArrives 0 (.okFrequency (sampleFrequencyAnalysis "response-A")) ]

/-- A selection is made under kind `audio-features`; the user switches the
kind to `common-terms` while the debounce is pending (the kind switch does
not cancel the timer); the stale timer fires with its captured kind and the
frequency fetch succeeds; a fresh selection then dispatches a whisper fetch
that fails with HTTP 500. -/
def staleKindTrace : List Ev :=
  [ .planarSelect 0 ["x.wav"],
    .kindChange .commonTerms,
    .timerFire 300,
    .responseArrives 0 (.okFrequency (sampleFrequencyAnalysis "stale-kind")),
    .planarSelect 400 ["y.wav"],
    .timerFire 700,
    .responseArrives 0 (.httpError 500 "server error") ]

/-- A panel holding a populated frequency slot and a non-empty planar
selection. -/
def panelWithResult : PanelState :=
  { initialPanel with selectedPoints2D := ["a.wav"],
                      audioFrequencyAnalysis := some (sampleFrequencyAnalysis "resident") }

/-- A panel whose stored selections hold `a` and `b` as separate files. -/
def commaPanel : PanelState :=
  { initialPanel with selectedByAngle := ["a", "b"], selectedPoints2D := ["a", "b"] }

/- ===== Claim C1 ===== -/

/-- Claim C1: the claim says a stale dispatch's late response is discarded
via a monotonically increasing request sequence number.  The code tracks no
sequence number: in the trace where dispatch A starts, dispatch B starts,
B's response is committed and A's response then arrives, A's late response
overwrites the state B committed (`model_context` goes from `response-B`
back to `response-A`).  This exhibits the code bug against the claimed
(and spec-mandated) stale-discard behaviour. -/
theorem stale_response_overwrites_fresh_result :
    (runSys initialSys staleTracePrefix).panel.audioFrequencyAnalysis.map
        AudioFrequencyAnalysis.model_context = some "response-B" ∧
    (runSys initialSys staleTrace).panel.audioFrequencyAnalysis.map
        AudioFrequencyAnalysis.model_context = some "response-A" ∧
    ("response-A" : String) ≠ "response-B" :=
  ⟨rfl, rfl, by decide⟩

/- ===== Claim C4 ===== -/

/-- Claim C4, counterexample: after a selection update that changes the
stored selection to the empty set, the result slots are NOT cleared
synchronously (the resident frequency analysis is still there) and a
debounce IS scheduled, contradicting the claim's "cleared synchronously,
no debounce scheduled". -/
theorem empty_selection_not_synchronous :
    (handle2DSelectionChange 0 [] panelWithResult).audioFrequencyAnalysis.isSome = true ∧
    (handle2DSelectionChange 0 [] panelWithResult).debounceTimer.isSome = true :=
  ⟨rfl, rfl⟩

/-- Claim C4 (amended): a selection update to the empty set leaves all
three result slots untouched at the instant of the call, schedules a
300-unit debounce token capturing the empty file list (when the stored
selection was non-empty, so the update is a change), and when that token
fires its callback clears all three result slots and dispatches no backend
request.  Emptiness is handled through the debounce, not synchronously. -/
theorem empty_selection_clear_deferred (s : PanelState) (now : Nat) :
    ((handle2DSelectionChange now [] s).audioFrequencyAnalysis = s.audioFrequencyAnalysis ∧
     (handle2DSelectionChange now [] s).batchPrediction = s.batchPrediction ∧
     (handle2DSelectionChange now [] s).whisperAnalysis = s.whisperAnalysis) ∧
    ((handleAngleRangeSelect now [] s).audioFrequencyAnalysis = s.audioFrequencyAnalysis ∧
     (handleAngleRangeSelect now [] s).batchPrediction = s.batchPrediction ∧
     (handleAngleRangeSelect now [] s).whisperAnalysis = s.whisperAnalysis) ∧
    (selectionKey s.selectedPoints2D ≠ "" →
      (handle2DSelectionChange now [] s).debounceTimer =
        some { deadline := now + 300, selectedFiles := [], kind := s.analysisType,
               model := s.model, dataset := s.dataset }) ∧
    (selectionKey s.selectedByAngle ≠ "" →
      (handleAngleRangeSelect now [] s).debounceTimer =
        some { deadline := now + 300, selectedFiles := [], kind := s.analysisType,
               model := s.model, dataset := s.dataset }) ∧
    (∀ (tok : DebounceToken) (q : PanelState), tok.selectedFiles = [] →
      debounceCallback tok q = (clearAnalysisResults q, none)) := by
  refine ⟨?_, ?_, ?_, ?_, ?_⟩
  · unfold handle2DSelectionChange; split <;> exact ⟨rfl, rfl, rfl⟩
  · unfold handleAngleRangeSelect; split <;> exact ⟨rfl, rfl, rfl⟩
  · intro h
    unfold handle2DSelectionChange
    rw [if_pos (show selectionKey s.selectedPoints2D ≠ selectionKey [] from h)]
  · intro h
    unfold handleAngleRangeSelect
    rw [if_pos (show selectionKey s.selectedByAngle ≠ selectionKey [] from h)]
  · intro tok q htok
    unfold debounceCallback
    rw [htok]
    rfl

/-- Witness for the amended C4 at a concrete panel. -/
theorem empty_selection_clear_deferred_witness :
    (handle2DSelectionChange 0 [] commaPanel).debounceTimer =
      some { deadline := 300, selectedFiles := [], kind := .audioFeatures,
             model := "whisper-base", dataset := "common-voice" } ∧
    debounceCallback { deadline := 300, selectedFiles := [], kind := .audioFeatures,
                       model := "whisper-base", dataset := "common-voice" } commaPanel =
      (clearAnalysisResults commaPanel, none) := by
  have h := empty_selection_clear_deferred commaPanel 0
  exact ⟨h.2.2.1 (by decide), h.2.2.2.2 _ _ rfl⟩

/- ===== Claim C7 ===== -/

/-- Claim C7, counterexample: a failed analysis fetch does not always leave
all three result slots empty.  A debounce scheduled under `audio-features`
survives a switch to `common-terms` (the kind switch never cancels the
timer), its late success populates the frequency slot, and the next whisper
fetch failure then records the HTTP 500 error yet leaves that frequency
slot populated. -/
theorem error_path_leaves_other_slot_populated :
    (runSys initialSys staleKindTrace).panel.analysisError =
      some "Failed to fetch whisper analysis: 500 - server error" ∧
    (runSys initialSys staleKindTrace).panel.audioFrequencyAnalysis.isSome = true :=
  ⟨rfl, rfl⟩

/-- Claim C7 (amended): on a non-success HTTP status each fetch records an
error message containing the status code and the response body text and
clears its own target slot, leaving the other two slots unchanged — so all
three slots are empty whenever the other two were already empty, but an
already-populated foreign slot is not cleared.  No fetch error escapes: the
catch path is total (it always yields a state). -/
theorem analysis_fetch_error_clears_target_slot (s : PanelState) (status : Nat) (body : String) :
    ((applyCompletion .audioFeatures (.httpError status body) s).analysisError =
        some (frequencyErrorMessage status body) ∧
     strIncludes (frequencyErrorMessage status body) (toString status) ∧
     strIncludes (frequencyErrorMessage status body) body ∧
     (applyCompletion .audioFeatures (.httpError status body) s).audioFrequencyAnalysis = none ∧
     (applyCompletion .audioFeatures (.httpError status body) s).batchPrediction =
        s.batchPrediction ∧
     (applyCompletion .audioFeatures (.httpError status body) s).whisperAnalysis =
        s.whisperAnalysis ∧
     (s.batchPrediction = none → s.whisperAnalysis = none →
        allResultsEmpty (applyCompletion .audioFeatures (.httpError status body) s))) ∧
    ((applyCompletion .predictions (.httpError status body) s).analysisError =
        some (predictionErrorMessage status body) ∧
     strIncludes (predictionErrorMessage status body) (toString status) ∧
     strIncludes (predictionErrorMessage status body) body ∧
     (applyCompletion .predictions (.httpError status body) s).batchPrediction = none ∧
     (applyCompletion .predictions (.httpError status body) s).audioFrequencyAnalysis =
        s.audioFrequencyAnalysis ∧
     (applyCompletion .predictions (.httpError status body) s).whisperAnalysis =
        s.whisperAnalysis ∧
     (s.audioFrequencyAnalysis = none → s.whisperAnalysis = none →
        allResultsEmpty (applyCompletion .predictions (.httpError status body) s))) ∧
    ((applyCompletion .commonTerms (.httpError status body) s).analysisError =
        some (whisperErrorMessage status body) ∧
     strIncludes (whisperErrorMessage status body) (toString status) ∧
     strIncludes (whisperErrorMessage status body) body ∧
     (applyCompletion .commonTerms (.httpError status body) s).whisperAnalysis = none ∧
     (applyCompletion .commonTerms (.httpError status body) s).audioFrequencyAnalysis =
        s.audioFrequencyAnalysis ∧
     (applyCompletion .commonTerms (.httpError status body) s).batchPrediction =
        s.batchPrediction ∧
     (s.audioFrequencyAnalysis = none → s.batchPrediction = none →
        allResultsEmpty (applyCompletion .commonTerms (.httpError status body) s))) := by
  refine ⟨⟨rfl, ?_, ?_, rfl, rfl, rfl, fun h1 h2 => ⟨rfl, h1, h2⟩⟩,
          ⟨rfl, ?_, ?_, rfl, rfl, rfl, fun h1 h2 => ⟨h1, rfl, h2⟩⟩,
          ⟨rfl, ?_, ?_, rfl, rfl, rfl, fun h1 h2 => ⟨h1, h2, rfl⟩⟩⟩
  · exact ⟨"Failed to fetch audio frequency analysis: ", " - " ++ body,
      by rw [frequencyErrorMessage, String.append_assoc]⟩
  · exact ⟨"Failed to fetch audio frequency analysis: " ++ toString status ++ " - ", "",
      (String.append_empty _).symm⟩
  · exact ⟨"Failed to fetch batch predictions: ", " - " ++ body,
      by rw [predictionErrorMessage, String.append_assoc]⟩
  · exact ⟨"Failed to fetch batch predictions: " ++ toString status ++ " - ", "",
      (String.append_empty _).symm⟩
  · exact ⟨"Failed to fetch whisper analysis: ", " - " ++ body,
      by rw [whisperErrorMessage, String.append_assoc]⟩
  · exact ⟨"Failed to fetch whisper analysis: " ++ toString status ++ " - ", "",
      (String.append_empty _).symm⟩

/-- Witness for the amended C7: the spec's own scenario, an `audio-features`
dispatch failing with HTTP 500 and body `server error` while the other two
slots are empty, ends with an error mentioning both and all slots empty. -/
theorem analysis_fetch_error_clears_target_slot_witness :
    allResultsEmpty (applyCompletion .audioFeatures (.httpError 500 "server error")
        panelWithResult) ∧
    strIncludes (frequencyErrorMessage 500 "server error") "500" ∧
    strIncludes (frequencyErrorMessage 500 "server error") "server error" := by
  have h := analysis_fetch_error_clears_target_slot panelWithResult 500 "server error"
  exact ⟨h.1.2.2.2.2.2.2 rfl rfl, h.1.2.1, h.1.2.2.1⟩

/- ===== Claim C9 ===== -/

/-- Claim C9: the catch path of each of the three fetches modifies only the
error message, the loading flag and (its own) analysis result slot; in
particular the angle-range and planar selection sets — and every other
field: model, dataset, file universe, reduction method, dimensionality,
gesture mode, analysis kind, debounce timer, embedding data — are left
unchanged, so the selection survives a failed analysis fetch. -/
theorem failed_fetch_preserves_selection (s : PanelState) (message : String) :
    selectionFrameIntact s (fetchFrequencyFailure message s) ∧
    selectionFrameIntact s (fetchPredictionFailure message s) ∧
    selectionFrameIntact s (fetchWhisperFailure message s) := by
  refine ⟨?_, ?_, ?_⟩ <;>
    exact ⟨rfl, rfl, rfl, rfl, rfl, rfl, rfl, rfl, rfl, rfl, rfl⟩

/- ===== Claim C10 ===== -/

/-- Claim C10: the selection comparison sorts and joins with a comma, so the
genuinely different selections `["a,b"]` and `["a", "b"]` (the file `a,b`
is not an element of the two-file selection) share the fingerprint `a,b`;
updating a panel that stores `["a", "b"]` with `["a,b"]` is treated as
unchanged by both handlers: the stored set is not replaced and no debounce
or fetch is scheduled (the state is returned untouched). -/
theorem comma_join_selection_collision :
    ("a,b" ∉ (["a", "b"] : List String)) ∧
    selectionKey ["a,b"] = selectionKey ["a", "b"] ∧
    handle2DSelectionChange 0 ["a,b"] commaPanel = commaPanel ∧
    handleAngleRangeSelect 0 ["a,b"] commaPanel = commaPanel :=
  ⟨by decide, rfl, rfl, rfl⟩

/- ===== Claim C2: mutual exclusivity of the result slots ===== -/

/-- At most one of the three analysis result slots is populated: some pair
of the three is empty. -/
def atMostOneResult (s : PanelState) : Prop :=
  (s.audioFrequencyAnalysis = none ∧ s.batchPrediction = none) ∨
  (s.batchPrediction = none ∧ s.whisperAnalysis = none) ∨
  (s.whisperAnalysis = none ∧ s.audioFrequencyAnalysis = none)

lemma atMostOne_of_slots_eq {s t : PanelState}
    (h1 : t.audioFrequencyAnalysis = s.audioFrequencyAnalysis)
    (h2 : t.batchPrediction = s.batchPrediction)
    (h3 : t.whisperAnalysis = s.whisperAnalysis)
    (h : atMostOneResult s) : atMostOneResult t := by
  unfold atMostOneResult at h ⊢
  rw [h1, h2, h3]
  exact h

lemma handleAngleRangeSelect_slots (now : Nat) (files : List String) (s : PanelState) :
    (handleAngleRangeSelect now files s).audioFrequencyAnalysis = s.audioFrequencyAnalysis ∧
    (handleAngleRangeSelect now files s).batchPrediction = s.batchPrediction ∧
    (handleAngleRangeSelect now files s).whisperAnalysis = s.whisperAnalysis := by
  unfold handleAngleRangeSelect
  split <;> exact ⟨rfl, rfl, rfl⟩

lemma handle2DSelectionChange_slots (now : Nat) (files : List String) (s : PanelState) :
    (handle2DSelectionChange now files s).audioFrequencyAnalysis = s.audioFrequencyAnalysis ∧
    (handle2DSelectionChange now files s).batchPrediction = s.batchPrediction ∧
    (handle2DSelectionChange now files s).whisperAnalysis = s.whisperAnalysis := by
  unfold handle2DSelectionChange
  split <;> exact ⟨rfl, rfl, rfl⟩

lemma fetchFrequencyAnalysisStart_slots (fns : List String) (m d : String) (s : PanelState) :
    (fetchFrequencyAnalysisStart fns m d s).1.audioFrequencyAnalysis =
        s.audioFrequencyAnalysis ∧
    (fetchFrequencyAnalysisStart fns m d s).1.batchPrediction = s.batchPrediction ∧
    (fetchFrequencyAnalysisStart fns m d s).1.whisperAnalysis = s.whisperAnalysis := by
  unfold fetchFrequencyAnalysisStart
  split <;> exact ⟨rfl, rfl, rfl⟩

lemma fetchBatchPredictionsStart_slots (fns : List String) (d : String) (s : PanelState) :
    (fetchBatchPredictionsStart fns d s).1.audioFrequencyAnalysis = s.audioFrequencyAnalysis ∧
    (fetchBatchPredictionsStart fns d s).1.batchPrediction = s.batchPrediction ∧
    (fetchBatchPredictionsStart fns d s).1.whisperAnalysis = s.whisperAnalysis := by
  unfold fetchBatchPredictionsStart
  split <;> exact ⟨rfl, rfl, rfl⟩

lemma fetchWhisperAnalysisStart_slots (fns : List String) (m d : String) (s : PanelState) :
    (fetchWhisperAnalysisStart fns m d s).1.audioFrequencyAnalysis = s.audioFrequencyAnalysis ∧
    (fetchWhisperAnalysisStart fns m d s).1.batchPrediction = s.batchPrediction ∧
    (fetchWhisperAnalysisStart fns m d s).1.whisperAnalysis = s.whisperAnalysis := by
  unfold fetchWhisperAnalysisStart
  split <;> exact ⟨rfl, rfl, rfl⟩

lemma fetchAnalysisStart_slots (kind : AnalysisKind) (fns : List String) (m d : String)
    (s : PanelState) :
    (fetchAnalysisStart kind fns m d s).1.audioFrequencyAnalysis = s.audioFrequencyAnalysis ∧
    (fetchAnalysisStart kind fns m d s).1.batchPrediction = s.batchPrediction ∧
    (fetchAnalysisStart kind fns m d s).1.whisperAnalysis = s.whisperAnalysis := by
  cases kind with
  | predictions => exact fetchBatchPredictionsStart_slots fns d s
  | commonTerms => exact fetchWhisperAnalysisStart_slots fns m d s
  | audioFeatures => exact fetchFrequencyAnalysisStart_slots fns m d s

lemma clearAnalysisResults_atMostOne (s : PanelState) :
    atMostOneResult (clearAnalysisResults s) :=
  Or.inl ⟨rfl, rfl⟩

lemma debounceCallback_atMostOne (tok : DebounceToken) (q : PanelState)
    (h : atMostOneResult q) : atMostOneResult (debounceCallback tok q).1 := by
  unfold debounceCallback
  split
  · have hs := fetchAnalysisStart_slots tok.kind tok.selectedFiles tok.model tok.dataset q
    exact atMostOne_of_slots_eq hs.1 hs.2.1 hs.2.2 h
  · exact clearAnalysisResults_atMostOne q

lemma fetchFrequencyFailure_atMostOne (m : String) (s : PanelState)
    (h : atMostOneResult s) : atMostOneResult (fetchFrequencyFailure m s) := by
  rcases h with ⟨h1, h2⟩ | ⟨h1, h2⟩ | ⟨h1, h2⟩
  · exact Or.inl ⟨rfl, h2⟩
  · exact Or.inr (Or.inl ⟨h1, h2⟩)
  · exact Or.inr (Or.inr ⟨h1, rfl⟩)

lemma fetchPredictionFailure_atMostOne (m : String) (s : PanelState)
    (h : atMostOneResult s) : atMostOneResult (fetchPredictionFailure m s) := by
  rcases h with ⟨h1, h2⟩ | ⟨h1, h2⟩ | ⟨h1, h2⟩
  · exact Or.inl ⟨h1, rfl⟩
  · exact Or.inr (Or.inl ⟨rfl, h2⟩)
  · exact Or.inr (Or.inr ⟨h1, h2⟩)

lemma fetchWhisperFailure_atMostOne (m : String) (s : PanelState)
    (h : atMostOneResult s) : atMostOneResult (fetchWhisperFailure m s) := by
  rcases h with ⟨h1, h2⟩ | ⟨h1, h2⟩ | ⟨h1, h2⟩
  · exact Or.inl ⟨h1, h2⟩
  · exact Or.inr (Or.inl ⟨h1, rfl⟩)
  · exact Or.inr (Or.inr ⟨rfl, h2⟩)

lemma applyCompletion_atMostOne (kind : AnalysisKind) (res : FetchResult) (s : PanelState)
    (h : atMostOneResult s) : atMostOneResult (applyCompletion kind res s) := by
  cases kind with
  | predictions =>
    cases res with
    | okFrequency a => exact h
    | okPrediction p => exact Or.inr (Or.inr ⟨rfl, rfl⟩)
    | okWhisper w => exact h
    | httpError st bd => exact fetchPredictionFailure_atMostOne _ _ h
    | netError m => exact fetchPredictionFailure_atMostOne _ _ h
  | commonTerms =>
    cases res with
    | okFrequency a => exact h
    | okPrediction p => exact h
    | okWhisper w => exact Or.inl ⟨rfl, rfl⟩
    | httpError st bd => exact fetchWhisperFailure_atMostOne _ _ h
    | netError m => exact fetchWhisperFailure_atMostOne _ _ h
  | audioFeatures =>
    cases res with
    | okFrequency a => exact Or.inr (Or.inl ⟨rfl, rfl⟩)
    | okPrediction p => exact h
    | okWhisper w => exact h
    | httpError st bd => exact fetchFrequencyFailure_atMostOne _ _ h
    | netError m => exact fetchFrequencyFailure_atMostOne _ _ h

lemma stepSys_atMostOne (sys : Sys) (e : Ev) (h : atMostOneResult sys.panel) :
    atMostOneResult (stepSys sys e).panel := by
  cases e with
  | angleSelect now files =>
    have hs := handleAngleRangeSelect_slots now files sys.panel
    exact atMostOne_of_slots_eq hs.1 hs.2.1 hs.2.2 h
  | planarSelect now files =>
    have hs := handle2DSelectionChange_slots now files sys.panel
    exact atMostOne_of_slots_eq hs.1 hs.2.1 hs.2.2 h
  | kindChange value => exact Or.inl ⟨rfl, rfl⟩
  | modelChange m =>
    show atMostOneResult (modelChangeEffect { sys.panel with model := m })
    unfold modelChangeEffect
    split
    · exact Or.inl ⟨rfl, rfl⟩
    · exact h
  | timerFire now =>
    rcases htok : sys.panel.debounceTimer with _ | tok
    · simp only [stepSys, htok]
      exact h
    · simp only [stepSys, htok]
      split
      · exact debounceCallback_atMostOne _ _ (atMostOne_of_slots_eq rfl rfl rfl h)
      · exact h
  | responseArrives i res =>
    rcases hq : sys.inFlight[i]? with _ | pf
    · simp only [stepSys, hq]
      exact h
    · simp only [stepSys, hq]
      exact applyCompletion_atMostOne _ _ _ h

lemma runSys_atMostOne (evs : List Ev) :
    ∀ sys : Sys, atMostOneResult sys.panel → atMostOneResult (runSys sys evs).panel := by
  induction evs with
  | nil => intro sys h; exact h
  | cons e es ih => intro sys h; exact ih _ (stepSys_atMostOne sys e h)

/-- Claim C2: along every event trace from panel mount, at most one of the
three analysis result slots is populated at every instant; each successful
fetch that populates its slot nulls the other two in the same atomic
completion step, and `clearAnalysisResults` empties all three. -/
theorem analysis_slots_mutually_exclusive :
    (∀ evs : List Ev, atMostOneResult (runSys initialSys evs).panel) ∧
    (∀ (a : AudioFrequencyAnalysis) (s : PanelState),
      (fetchFrequencySuccess a s).audioFrequencyAnalysis = some a ∧
      (fetchFrequencySuccess a s).batchPrediction = none ∧
      (fetchFrequencySuccess a s).whisperAnalysis = none) ∧
    (∀ (p : BatchPredictionAnalysis) (s : PanelState),
      (fetchPredictionSuccess p s).batchPrediction = some p ∧
      (fetchPredictionSuccess p s).audioFrequencyAnalysis = none ∧
      (fetchPredictionSuccess p s).whisperAnalysis = none) ∧
    (∀ (w : WhisperAnalysis) (s : PanelState),
      (fetchWhisperSuccess w s).whisperAnalysis = some w ∧
      (fetchWhisperSuccess w s).audioFrequencyAnalysis = none ∧
      (fetchWhisperSuccess w s).batchPrediction = none) ∧
    (∀ s : PanelState, allResultsEmpty (clearAnalysisResults s)) := by
  refine ⟨fun evs => runSys_atMostOne evs initialSys (Or.inl ⟨rfl, rfl⟩),
          fun a s => ⟨rfl, rfl, rfl⟩, fun p s => ⟨rfl, rfl, rfl⟩,
          fun w s => ⟨rfl, rfl, rfl⟩, fun s => ⟨rfl, rfl, rfl⟩⟩

/- ===== Claim C6: legal analysis kinds per model ===== -/

lemma headI_mem_getAvailableAnalysisTypes (m : String) :
    (getAvailableAnalysisTypes m).headI ∈ getAvailableAnalysisTypes m := by
  unfold getAvailableAnalysisTypes
  split
  · decide
  · split <;> decide

/-- Claim C6: `getAvailableAnalysisTypes` is never empty; the model string
`wav2vec2` yields `[predictions, audio-features]`, any other model
containing the substring `whisper` yields `[common-terms, audio-features]`,
and every remaining model yields `[audio-features]`.  After a model change
the active kind is always an element of the legal list, and when the prior
kind is not legal for the new model it is forced to the list's first
element (the default) with all three analysis results cleared. -/
theorem legal_kinds_sound (m : String) (s : PanelState) :
    getAvailableAnalysisTypes m ≠ [] ∧
    getAvailableAnalysisTypes "wav2vec2" = [.predictions, .audioFeatures] ∧
    (stringIncludes m "whisper" = true → m ≠ "wav2vec2" →
      getAvailableAnalysisTypes m = [.commonTerms, .audioFeatures]) ∧
    (stringIncludes m "whisper" = false → m ≠ "wav2vec2" →
      getAvailableAnalysisTypes m = [.audioFeatures]) ∧
    (modelChangeEffect s).analysisType ∈ getAvailableAnalysisTypes s.model ∧
    (s.analysisType ∉ getAvailableAnalysisTypes s.model →
      (modelChangeEffect s).analysisType = (getAvailableAnalysisTypes s.model).headI ∧
      allResultsEmpty (modelChangeEffect s)) := by
  refine ⟨?_, rfl, ?_, ?_, ?_, ?_⟩
  · unfold getAvailableAnalysisTypes
    split
    · simp
    · split <;> simp
  · intro hinc hne
    unfold getAvailableAnalysisTypes
    rw [if_neg hne, if_pos hinc]
  · intro hninc hne
    unfold getAvailableAnalysisTypes
    rw [if_neg hne, if_neg (by simp [hninc])]
  · unfold modelChangeEffect
    split
    · exact headI_mem_getAvailableAnalysisTypes s.model
    · rename_i hmem
      simpa using hmem
  · intro hnotmem
    unfold modelChangeEffect
    rw [if_pos hnotmem]
    exact ⟨rfl, rfl, rfl, rfl⟩

/-- A panel on a model legal for neither special family, sitting on the
`predictions` kind with a populated frequency slot. -/
def hubertPanel : PanelState :=
  { panelWithResult with model := "hubert", analysisType := .predictions }

/-- Witness for C6: a whisper-family model resolves to
`[common-terms, audio-features]`, and a model legal for neither special
family forces a panel sitting on `predictions` to the default
`audio-features` with all results cleared. -/
theorem legal_kinds_sound_witness :
    getAvailableAnalysisTypes "whisper-large" = [.commonTerms, .audioFeatures] ∧
    (modelChangeEffect hubertPanel).analysisType = .audioFeatures ∧
    allResultsEmpty (modelChangeEffect hubertPanel) := by
  have h1 := (legal_kinds_sound "whisper-large" initialPanel).2.2.1 (by decide) (by decide)
  have h2 := (legal_kinds_sound "hubert" hubertPanel).2.2.2.2.2 (by decide)
  exact ⟨h1, h2.1, h2.2⟩

/- ===== Claim C8: the embedding fetch trigger ===== -/

lemma modelChangeEffect_config_frame (s : PanelState) :
    (modelChangeEffect s).model = s.model ∧
    (modelChangeEffect s).dataset = s.dataset ∧
    (modelChangeEffect s).availableFiles = s.availableFiles ∧
    (modelChangeEffect s).reductionMethod = s.reductionMethod ∧
    (modelChangeEffect s).is3D = s.is3D := by
  unfold modelChangeEffect
  split <;> exact ⟨rfl, rfl, rfl, rfl, rfl⟩

/-- Claim C8 (amended): a change of model, dataset, file universe or
reduction method issues an immediate, undebounced projection request for
all files of the universe at the current dimensionality whenever the
universe is non-empty and model and dataset are truthy; a dimensionality
toggle, by contrast, issues an immediate request at the new dimensionality
only when embedding data is already present (and the universe non-empty),
and issues nothing at all when no embedding data is loaded. -/
theorem embedding_fetch_on_config_change (s : PanelState) (m d r : String)
    (files : List String) (checked : Bool) :
    (m ≠ "" → s.dataset ≠ "" → s.availableFiles ≠ [] →
      (stepConfig (.modelProp m) s).2 =
        some { model := m, dataset := s.dataset, files := s.availableFiles,
               method := s.reductionMethod, nComponents := if s.is3D then 3 else 2 }) ∧
    (s.model ≠ "" → d ≠ "" → s.availableFiles ≠ [] →
      (stepConfig (.datasetProp d) s).2 =
        some { model := s.model, dataset := d, files := s.availableFiles,
               method := s.reductionMethod, nComponents := if s.is3D then 3 else 2 }) ∧
    (s.model ≠ "" → s.dataset ≠ "" → files ≠ [] →
      (stepConfig (.filesProp files) s).2 =
        some { model := s.model, dataset := s.dataset, files := files,
               method := s.reductionMethod, nComponents := if s.is3D then 3 else 2 }) ∧
    (s.model ≠ "" → s.dataset ≠ "" → s.availableFiles ≠ [] →
      (stepConfig (.methodChange r) s).2 =
        some { model := s.model, dataset := s.dataset, files := s.availableFiles,
               method := r, nComponents := if s.is3D then 3 else 2 }) ∧
    (s.embeddingData.isSome = true → s.availableFiles ≠ [] →
      (stepConfig (.dimensionToggle checked) s).2 =
        some { model := s.model, dataset := s.dataset, files := s.availableFiles,
               method := s.reductionMethod, nComponents := if checked then 3 else 2 }) ∧
    (s.embeddingData = none → (stepConfig (.dimensionToggle checked) s).2 = none) := by
  refine ⟨?_, ?_, ?_, ?_, ?_, ?_⟩
  · intro hm hd hf
    show embeddingFetchEffect (modelChangeEffect { s with model := m }) = _
    have hc := modelChangeEffect_config_frame { s with model := m }
    unfold embeddingFetchEffect
    rw [if_pos]
    · rw [hc.1, hc.2.1, hc.2.2.1, hc.2.2.2.1, hc.2.2.2.2]
    · refine ⟨?_, ?_, ?_⟩
      · rw [hc.2.2.1]; exact List.length_pos.mpr hf
      · rw [hc.1]; exact hm
      · rw [hc.2.1]; exact hd
  · intro hm hd hf
    show embeddingFetchEffect { s with dataset := d } = _
    unfold embeddingFetchEffect
    rw [if_pos ⟨List.length_pos.mpr hf, hm, hd⟩]
  · intro hm hd hf
    show embeddingFetchEffect { s with availableFiles := files } = _
    unfold embeddingFetchEffect
    rw [if_pos ⟨List.length_pos.mpr hf, hm, hd⟩]
  · intro hm hd hf
    show embeddingFetchEffect { s with reductionMethod := r } = _
    unfold embeddingFetchEffect
    rw [if_pos ⟨List.length_pos.mpr hf, hm, hd⟩]
  · intro hdata hf
    show (handle3DToggle checked s).2 = _
    unfold handle3DToggle
    rw [if_pos ⟨hdata, List.length_pos.mpr hf⟩]
  · intro hdata
    show (handle3DToggle checked s).2 = none
    unfold handle3DToggle
    rw [if_neg]
    intro hcon
    rw [hdata] at hcon
    exact Bool.false_ne_true hcon.1

/-- Claim C8, counterexample: with a non-empty file universe and model and
dataset both set but no embedding data loaded yet, toggling the
dimensionality issues no projection request, although the claim demands a
request on any change of the dimensionality component of the tuple. -/
theorem dimension_toggle_without_data_issues_no_request :
    ({ initialPanel with availableFiles := ["x.wav"] } : PanelState).availableFiles ≠ [] ∧
    ({ initialPanel with availableFiles := ["x.wav"] } : PanelState).model ≠ "" ∧
    ({ initialPanel with availableFiles := ["x.wav"] } : PanelState).dataset ≠ "" ∧
    (stepConfig (.dimensionToggle true) { initialPanel with availableFiles := ["x.wav"] }).2 =
      none ∧
    (stepConfig (.dimensionToggle true) { initialPanel with availableFiles := ["x.wav"] }).1.is3D =
      true := by
  refine ⟨by decide, by decide, by decide, rfl, rfl⟩

/-- Witness for the amended C8: a reduction-method change on the same panel
issues an immediate request for all files at dimensionality 2, and the
toggle with embedding data present issues one at dimensionality 3. -/
theorem embedding_fetch_on_config_change_witness :
    (stepConfig (.methodChange "umap") { initialPanel with availableFiles := ["x.wav"] }).2 =
      some { model := "whisper-base", dataset := "common-voice", files := ["x.wav"],
             method := "umap", nComponents := 2 } ∧
    (stepConfig (.dimensionToggle true)
        { initialPanel with availableFiles := ["x.wav"],
                            embeddingData := some { model := "whisper-base", coordinates := [] }
        }).2 =
      some { model := "whisper-base", dataset := "common-voice", files := ["x.wav"],
             method := "pca", nComponents := 3 } := by
  constructor
  · exact (embedding_fetch_on_config_change { initialPanel with availableFiles := ["x.wav"] }
      "" "" "umap" [] true).2.2.2.1 (by decide) (by decide) (by decide)
  · exact (embedding_fetch_on_config_change
      { initialPanel with availableFiles := ["x.wav"],
                          embeddingData := some { model := "whisper-base", coordinates := [] } }
      "" "" "" [] true).2.2.2.2.1 rfl (by decide)

/- ===== Claim C5: order-independent equality makes repeats no-ops ===== -/

lemma charListLt_asymm : ∀ {as bs : List Char},
    charListLt as bs = true → charListLt bs as = false := by
  intro as
  induction as with
  | nil =>
    intro bs h
    cases bs with
    | nil => simp [charListLt] at h
    | cons b bs => simp [charListLt]
  | cons a as ih =>
    intro bs h
    cases bs with
    | nil => simp [charListLt] at h
    | cons b bs =>
      simp only [charListLt, Bool.or_eq_true, Bool.and_eq_true, decide_eq_true_eq] at h
      simp only [charListLt, Bool.or_eq_false_iff, Bool.and_eq_false_iff,
        decide_eq_false_iff_not, decide_eq_true_eq]
      rcases h with h | ⟨heq, hlt⟩
      · exact ⟨by omega, Or.inl (by omega)⟩
      · exact ⟨by omega, Or.inr (by simpa using ih hlt)⟩

lemma charListLt_antisymm : ∀ {as bs : List Char},
    charListLt as bs = false → charListLt bs as = false → as = bs := by
  intro as
  induction as with
  | nil =>
    intro bs h1 h2
    cases bs with
    | nil => rfl
    | cons b bs => simp [charListLt] at h1
  | cons a as ih =>
    intro bs h1 h2
    cases bs with
    | nil => simp [charListLt] at h2
    | cons b bs =>
      simp only [charListLt, Bool.or_eq_false_iff, Bool.and_eq_false_iff,
        decide_eq_false_iff_not, decide_eq_true_eq] at h1 h2
      have hval : a.toNat = b.toNat := by omega
      have hab : a = b := Char.ext (by
        have : a.val.toNat = b.val.toNat := hval
        exact UInt32.ext this)
      subst hab
      rcases h1.2 with hc | h1' 
      · exact absurd rfl hc
      · rcases h2.2 with hc | h2'
        · exact absurd rfl hc
        · rw [ih h1' h2']

lemma charListLt_trans : ∀ {as bs cs : List Char},
    charListLt as bs = true → charListLt bs cs = true → charListLt as cs = true := by
  intro as
  induction as with
  | nil =>
    intro bs cs h1 h2
    cases bs with
    | nil => simp [charListLt] at h1
    | cons b bs =>
      cases cs with
      | nil => simp [charListLt] at h2
      | cons c cs => simp [charListLt]
  | cons a as ih =>
    intro bs cs h1 h2
    cases bs with
    | nil => simp [charListLt] at h1
    | cons b bs =>
      cases cs with
      | nil => simp [charListLt] at h2
      | cons c cs =>
        simp only [charListLt, Bool.or_eq_true, Bool.and_eq_true, decide_eq_true_eq] at h1 h2 ⊢
        rcases h1 with h1 | ⟨h1e, h1l⟩
        · rcases h2 with h2 | ⟨h2e, h2l⟩
          · exact Or.inl (by omega)
          · exact Or.inl (by omega)
        · rcases h2 with h2 | ⟨h2e, h2l⟩
          · exact Or.inl (by omega)
          · exact Or.inr ⟨by omega, ih h1l h2l⟩

lemma strLtB_asymm {a b : String} (h : strLtB a b = true) : strLtB b a = false :=
  charListLt_asymm h

lemma strLtB_antisymm {a b : String} (h1 : strLtB a b = false) (h2 : strLtB b a = false) :
    a = b := by
  cases a with
  | mk da =>
    cases b with
    | mk db => exact congrArg String.mk (charListLt_antisymm h1 h2)

lemma strLtB_trans {a b c : String} (h1 : strLtB a b = true) (h2 : strLtB b c = true) :
    strLtB a c = true :=
  charListLt_trans h1 h2

lemma insertSorted_comm (x y : String) :
    ∀ L : List String, insertSorted x (insertSorted y L) = insertSorted y (insertSorted x L) := by
  intro L
  induction L with
  | nil =>
    by_cases hxy : strLtB x y = true
    · simp [insertSorted, hxy, strLtB_asymm hxy]
    · by_cases hyx : strLtB y x = true
      · simp [insertSorted, hxy, hyx]
      · have heq : x = y := strLtB_antisymm (by simpa using hxy) (by simpa using hyx)
        subst heq
        rfl
  | cons z L ih =>
    by_cases hxz : strLtB x z = true
    · by_cases hyz : strLtB y z = true
      · by_cases hxy : strLtB x y = true
        · simp [insertSorted, hxz, hyz, hxy, strLtB_asymm hxy]
        · by_cases hyx : strLtB y x = true
          · simp [insertSorted, hxz, hyz, hxy, hyx]
          · have heq : x = y := strLtB_antisymm (by simpa using hxy) (by simpa using hyx)
            subst heq
            rfl
      · have hyx : strLtB y x = false := by
          rcases hb : strLtB y x with _ | _
          · rfl
          · exact absurd (strLtB_trans hb hxz) (by simpa using hyz)
        simp [insertSorted, hxz, hyz, hyx]
    · by_cases hyz : strLtB y z = true
      · have hxy : strLtB x y = false := by
          rcases hb : strLtB x y with _ | _
          · rfl
          · exact absurd (strLtB_trans hb hyz) (by simpa using hxz)
        simp [insertSorted, hxz, hyz, hxy]
      · simp [insertSorted, hxz, hyz, ih]

lemma jsSort_perm_eq {l1 l2 : List String} (h : l1.Perm l2) : jsSort l1 = jsSort l2 := by
  induction h with
  | nil => rfl
  | cons x _ ih => simp only [jsSort, ih]
  | swap x y l => exact insertSorted_comm y x (jsSort l)
  | trans _ _ ih1 ih2 => exact ih1.trans ih2

/-- Claim C5: a selection update whose argument is set-equal to the stored
selection under the order-independent equality (a permutation of it) is a
no-op for both update operations: the panel state is returned unchanged —
the stored set is not replaced, no debounce timer is touched or created,
and hence no fetch is scheduled. -/
theorem equal_selection_noop (s : PanelState) (files : List String) (now : Nat) :
    (files.Perm s.selectedByAngle → handleAngleRangeSelect now files s = s) ∧
    (files.Perm s.selectedPoints2D → handle2DSelectionChange now files s = s) := by
  constructor
  · intro h
    have hkey : selectionKey s.selectedByAngle = selectionKey files := by
      unfold selectionKey
      rw [jsSort_perm_eq h]
    unfold handleAngleRangeSelect
    rw [if_neg (fun hne => hne hkey)]
  · intro h
    have hkey : selectionKey s.selectedPoints2D = selectionKey files := by
      unfold selectionKey
      rw [jsSort_perm_eq h]
    unfold handle2DSelectionChange
    rw [if_neg (fun hne => hne hkey)]

/-- A panel storing the same two files in both selections, in reversed
order relative to the incoming update. -/
def permPanel : PanelState :=
  { initialPanel with selectedByAngle := ["b.wav", "a.wav"],
                      selectedPoints2D := ["b.wav", "a.wav"] }

/-- Witness for C5: re-sending the same two files in a different order is a
no-op for both handlers. -/
theorem equal_selection_noop_witness :
    handleAngleRangeSelect 0 ["a.wav", "b.wav"] permPanel = permPanel ∧
    handle2DSelectionChange 0 ["a.wav", "b.wav"] permPanel = permPanel := by
  have h := equal_selection_noop permPanel ["a.wav", "b.wav"] 0
  exact ⟨h.1 (by decide), h.2 (by decide)⟩

/- ===== Claim C3: trailing debounce dispatches once, with the last payload ===== -/

/-- The state a changed selection event at time `t` with files `fs` leaves
behind: selection replaced, fresh 300-unit token capturing the closure
values. -/
def burstFinal : SelMode → PanelState → Nat → List String → PanelState
  | .angle, p, t, fs =>
    { p with selectedByAngle := fs,
             debounceTimer := some { deadline := t + 300, selectedFiles := fs,
                                     kind := p.analysisType, model := p.model,
                                     dataset := p.dataset } }
  | .planar, p, t, fs =>
    { p with selectedPoints2D := fs,
             debounceTimer := some { deadline := t + 300, selectedFiles := fs,
                                     kind := p.analysisType, model := p.model,
                                     dataset := p.dataset } }

lemma selectHandler_changed (mode : SelMode) (now : Nat) (fs : List String) (p : PanelState)
    (h : selectionKey (storedOf mode p) ≠ selectionKey fs) :
    selectHandler mode now fs p = burstFinal mode p now fs := by
  cases mode with
  | angle =>
    show handleAngleRangeSelect now fs p = _
    unfold handleAngleRangeSelect
    rw [if_pos (show selectionKey p.selectedByAngle ≠ selectionKey fs from h)]
    rfl
  | planar =>
    show handle2DSelectionChange now fs p = _
    unfold handle2DSelectionChange
    rw [if_pos (show selectionKey p.selectedPoints2D ≠ selectionKey fs from h)]
    rfl

lemma burstFinal_collapse (mode : SelMode) (p : PanelState) (t : Nat) (fs : List String)
    (t2 : Nat) (fs2 : List String) :
    burstFinal mode (burstFinal mode p t fs) t2 fs2 = burstFinal mode p t2 fs2 := by
  cases mode <;> rfl

lemma burstFinal_timer (mode : SelMode) (p : PanelState) (t : Nat) (fs : List String) :
    (burstFinal mode p t fs).debounceTimer =
      some { deadline := t + 300, selectedFiles := fs, kind := p.analysisType,
             model := p.model, dataset := p.dataset } := by
  cases mode <;> rfl

lemma storedOf_burstFinal (mode : SelMode) (p : PanelState) (t : Nat) (fs : List String) :
    storedOf mode (burstFinal mode p t fs) = fs := by
  cases mode <;> rfl

lemma fireDue_quiet (now : Nat) (p : PanelState) (acc : List AnalysisRequest)
    (hq : ∀ tok, p.debounceTimer = some tok → now < tok.deadline) :
    fireDue now p acc = (p, acc) := by
  rcases htok : p.debounceTimer with _ | tok
  · simp [fireDue, htok]
  · simp only [fireDue, htok]
    rw [if_neg]
    have := hq tok htok
    omega

lemma runBurst_nil (mode : SelMode) (p : PanelState) (acc : List AnalysisRequest) :
    runBurst mode p acc [] = (p, acc) := rfl

lemma runBurst_cons (mode : SelMode) (p : PanelState) (acc : List AnalysisRequest)
    (t : Nat) (fs : List String) (rest : List (Nat × List String)) :
    runBurst mode p acc ((t, fs) :: rest) =
      runBurst mode (selectHandler mode t fs (fireDue t p acc).1) (fireDue t p acc).2 rest := rfl

lemma burstChanges_cons {stored : List String} {e : Nat × List String}
    {rest : List (Nat × List String)} :
    burstChanges stored (e :: rest) = true ↔
      (selectionKey stored ≠ selectionKey e.2 ∧ burstChanges e.2 rest = true) := by
  simp [burstChanges]

lemma burstWellSpaced_cons2 {a b : Nat × List String} {rest : List (Nat × List String)} :
    burstWellSpaced (a :: b :: rest) = true ↔
      (a.1 ≤ b.1 ∧ b.1 < a.1 + 300 ∧ burstWellSpaced (b :: rest) = true) := by
  simp [burstWellSpaced, and_assoc]

lemma burstNonEmptyFiles_cons {e : Nat × List String} {rest : List (Nat × List String)} :
    burstNonEmptyFiles (e :: rest) = true ↔
      (e.2 ≠ [] ∧ burstNonEmptyFiles rest = true) := by
  simp [burstNonEmptyFiles]

lemma burstNonEmptyFiles_getLastD :
    ∀ (rest : List (Nat × List String)) (t : Nat) (fs : List String),
      burstNonEmptyFiles ((t, fs) :: rest) = true → (rest.getLastD (t, fs)).2 ≠ [] := by
  intro rest
  induction rest with
  | nil =>
    intro t fs h
    exact (burstNonEmptyFiles_cons.mp h).1
  | cons e rest ih =>
    intro t fs h
    rw [List.getLastD_cons]
    obtain ⟨t2, fs2⟩ := e
    exact ih t2 fs2 (burstNonEmptyFiles_cons.mp h).2

lemma runBurst_spec (mode : SelMode) :
    ∀ (rest : List (Nat × List String)) (t : Nat) (fs : List String) (p : PanelState)
      (acc : List AnalysisRequest),
      (∀ tok, p.debounceTimer = some tok → t < tok.deadline) →
      burstWellSpaced ((t, fs) :: rest) = true →
      burstChanges (storedOf mode p) ((t, fs) :: rest) = true →
      runBurst mode p acc ((t, fs) :: rest) =
        (burstFinal mode p (rest.getLastD (t, fs)).1 (rest.getLastD (t, fs)).2, acc) := by
  intro rest
  induction rest with
  | nil =>
    intro t fs p acc hq hw hc
    rw [runBurst_cons, fireDue_quiet t p acc hq]
    dsimp only
    rw [selectHandler_changed mode t fs p (burstChanges_cons.mp hc).1, runBurst_nil]
    rfl
  | cons e rest ih =>
    intro t fs p acc hq hw hc
    obtain ⟨t2, fs2⟩ := e
    have hw' := burstWellSpaced_cons2.mp hw
    have hc' := burstChanges_cons.mp hc
    rw [runBurst_cons, fireDue_quiet t p acc hq]
    dsimp only
    rw [selectHandler_changed mode t fs p hc'.1]
    have hq2 : ∀ tok, (burstFinal mode p t fs).debounceTimer = some tok → t2 < tok.deadline := by
      intro tok htok
      rw [burstFinal_timer] at htok
      cases Option.some.inj htok
      show t2 < t + 300
      exact hw'.2.1
    have hc2 : burstChanges (storedOf mode (burstFinal mode p t fs)) ((t2, fs2) :: rest) =
        true := by
      rw [storedOf_burstFinal]
      exact hc'.2
    rw [ih t2 fs2 (burstFinal mode p t fs) acc hq2 hw'.2.2 hc2, burstFinal_collapse,
      List.getLastD_cons]

lemma fetchAnalysisStart_request (kind : AnalysisKind) (fns : List String) (m d : String)
    (s : PanelState) (h : fns ≠ []) :
    (fetchAnalysisStart kind fns m d s).2 = some (analysisRequestFor kind fns m d) := by
  have hlen : ¬ fns.length = 0 := by simpa using h
  cases kind with
  | predictions =>
    show (fetchBatchPredictionsStart fns d s).2 = _
    unfold fetchBatchPredictionsStart
    rw [if_neg hlen]
    rfl
  | commonTerms =>
    show (fetchWhisperAnalysisStart fns m d s).2 = _
    unfold fetchWhisperAnalysisStart
    rw [if_neg hlen]
    rfl
  | audioFeatures =>
    show (fetchFrequencyAnalysisStart fns m d s).2 = _
    unfold fetchFrequencyAnalysisStart
    rw [if_neg hlen]
    rfl

lemma debounceCallback_dispatch (tok : DebounceToken) (q : PanelState)
    (h : tok.selectedFiles ≠ []) :
    (debounceCallback tok q).2 =
      some (analysisRequestFor tok.kind tok.selectedFiles tok.model tok.dataset) := by
  unfold debounceCallback
  rw [if_pos (List.length_pos.mpr h)]
  exact fetchAnalysisStart_request _ _ _ _ _ h

/-- Claim C3: a burst of selection-change events through either handler —
each event within the 300-unit quiet period of the previous one, each
changing the selection (so each cancels the pending token and schedules a
fresh one), each with non-empty files, starting from a panel with no
pending timer — dispatches no fetch during the burst, leaves a token whose
deadline is the last event's time plus 300, and once the quiet period
elapses dispatches exactly one analysis request whose payload is the file
set of the last event (routed by the panel's analysis kind): a trailing,
not leading, debounce. -/
theorem debounce_single_dispatch (mode : SelMode) (p : PanelState) (t : Nat)
    (fs : List String) (rest : List (Nat × List String))
    (hq : p.debounceTimer = none)
    (hw : burstWellSpaced ((t, fs) :: rest) = true)
    (hc : burstChanges (storedOf mode p) ((t, fs) :: rest) = true)
    (hn : burstNonEmptyFiles ((t, fs) :: rest) = true) :
    (runBurst mode p [] ((t, fs) :: rest)).2 = [] ∧
    (runBurst mode p [] ((t, fs) :: rest)).1.debounceTimer =
      some { deadline := (rest.getLastD (t, fs)).1 + 300,
             selectedFiles := (rest.getLastD (t, fs)).2, kind := p.analysisType,
             model := p.model, dataset := p.dataset } ∧
    (flushTimer (runBurst mode p [] ((t, fs) :: rest)).1
        (runBurst mode p [] ((t, fs) :: rest)).2).2 =
      [analysisRequestFor p.analysisType (rest.getLastD (t, fs)).2 p.model p.dataset] := by
  have hq' : ∀ tok, p.debounceTimer = some tok → t < tok.deadline := by
    intro tok htok
    rw [hq] at htok
    cases htok
  have hrun := runBurst_spec mode rest t fs p [] hq' hw hc
  have hlast := burstNonEmptyFiles_getLastD rest t fs hn
  refine ⟨by rw [hrun], ?_, ?_⟩
  · rw [hrun]
    exact burstFinal_timer mode p _ _
  · rw [hrun]
    dsimp only
    have htimer := burstFinal_timer mode p (rest.getLastD (t, fs)).1 (rest.getLastD (t, fs)).2
    simp only [flushTimer, htimer]
    rw [debounceCallback_dispatch _ _ hlast]
    rfl

/-- Witness for C3: two planar selection changes 100 units apart dispatch,
after the quiet period, exactly the one audio-features request for the
second event's file set. -/
theorem debounce_single_dispatch_witness :
    (flushTimer (runBurst .planar initialPanel [] [(0, ["a.wav", "b.wav"]), (100, ["b.wav"])]).1
        (runBurst .planar initialPanel [] [(0, ["a.wav", "b.wav"]), (100, ["b.wav"])]).2).2 =
      [analysisRequestFor .audioFeatures ["b.wav"] "whisper-base" "common-voice"] := by
  have h := debounce_single_dispatch .planar initialPanel 0 ["a.wav", "b.wav"]
    [(100, ["b.wav"])] rfl (by decide) (by decide) (by decide)
  exact h.2.2
